import Mathlib

/-!
Verification of the kickdata statistics core (src/utils.py, src/app.py).

The Python code is dynamically typed and works on nested JSON-like values.
We embed those values shallowly as the inductive type `PyVal`
(None / int / str / list / dict with string keys, mirroring the JSON shapes
the code manipulates), and embed each fallible Python operation used by the
source (`d[k]`, `d.get(k, default)`, `xs[i]`, `k in d`, division) as a
function into `Except PyErr _`, where `PyErr` mirrors the Python exception
that the operation raises.
-/

/-- Python exceptions raised by the operations the source uses. -/
inductive PyErr where
  | keyError : String → PyErr
  | typeError : PyErr
  | indexError : PyErr
  | zeroDivisionError : PyErr
  | valueError : PyErr
deriving DecidableEq

/-- JSON-like Python values as manipulated by the source: None, ints,
strings, lists and string-keyed dicts (all dict keys appearing in the
source and in the external API payloads are strings). -/
inductive PyVal where
  | none : PyVal
  | int : Int → PyVal
  | str : String → PyVal
  | list : List PyVal → PyVal
  | dict : List (String × PyVal) → PyVal

/-- Python `x is None`. -/
def PyVal.isNone : PyVal → Bool
  | .none => true
  | _ => false

/-- Whether a value is a numeric (here: integer) value. -/
def PyVal.isNumeric : PyVal → Bool
  | .int _ => true
  | _ => false

/-- First-match association-list lookup, the semantics of reading a key
from a Python dict (dicts built by the source never hold duplicate keys,
but the lookup is well defined regardless). -/
def lookupD : List (String × PyVal) → String → Except PyErr PyVal
  | [], k => .error (.keyError k)
  | (k', v) :: rest, k => if k' = k then .ok v else lookupD rest k

/-- Optional association-list lookup (no exception). -/
def lookupOpt : List (String × PyVal) → String → Option PyVal
  | [], _ => Option.none
  | (k', v) :: rest, k => if k' = k then some v else lookupOpt rest k

/-- Python subscript `v[k]` with a string key: KeyError when a dict lacks
the key, TypeError when the value is not a dict (in particular
`None[k]` raises TypeError). -/
def PyVal.getItem : PyVal → String → Except PyErr PyVal
  | .dict entries, k => lookupD entries k
  | _, _ => .error .typeError

/-- Python `v.get(k, default)` on a dict; on any non-dict the attribute
access fails (modelled as TypeError; the source only calls `.get` on
dicts). -/
def PyVal.getD : PyVal → String → PyVal → Except PyErr PyVal
  | .dict entries, k, d =>
      .ok (match lookupOpt entries k with
           | some v => v
           | Option.none => d)
  | _, _, _ => .error .typeError

/-- Python subscript `v[i]` with a non-negative integer index: IndexError
past the end of a list, TypeError on non-sequences (in particular on
None); the source only indexes lists, with index 0. -/
def pyIndex : PyVal → Nat → Except PyErr PyVal
  | .list xs, i =>
      match xs.get? i with
      | some v => .ok v
      | Option.none => .error .indexError
  | _, _ => .error .indexError

/-- Python `k in v` for a string `k`: key test on dicts; on None (the
only other value the source applies `in` to, namely the team-statistics
fetch result) Python raises TypeError, as it does on other
non-containers. -/
def pyContains : PyVal → String → Except PyErr Bool
  | .dict entries, k => .ok (entries.any (fun e => e.1 == k))
  | _, _ => .error .typeError

/-- Python truthiness of a value (`if response_data.get('response'):`). -/
def pyTruthy : PyVal → Bool
  | .none => false
  | .int n => decide (n ≠ 0)
  | .str s => decide (s ≠ "")
  | .list [] => false
  | .list (_ :: _) => true
  | .dict [] => false
  | .dict (_ :: _) => true

/-- Conversion of a value to an integer for arithmetic; Python raises
TypeError when an operand of `-`, `+` or `/` is not a number. -/
def PyVal.asInt : PyVal → Except PyErr Int
  | .int n => .ok n
  | _ => .error .typeError

/-- The static league-id table `LEAGUE_IDS` of src/utils.py. -/
def LEAGUE_IDS : List (String × Nat) :=
  [("Premier League", 39),
   ("Bundesliga", 78),
   ("La Liga (Spain)", 140),
   ("Serie A", 135),
   ("Ligue 1", 61),
   ("Eredivisie", 88),
   ("Serie A (Brazil)", 71),
   ("Primeira Liga", 94),
   ("Liga MX", 262),
   ("Premier League (Russia)", 235)]

/-- `LEAGUE_IDS.get(league_name)`. -/
def leagueLookup (league_name : String) : Option Nat :=
  (LEAGUE_IDS.find? (fun p => p.1 = league_name)).map (fun p => p.2)

/-- The `Invalid league name` message of src/utils.py. -/
def invalidLeagueMsg (league_name : String) : String :=
  "Invalid league name: " ++ league_name ++ ". Please choose from: " ++
    String.intercalate ", " (LEAGUE_IDS.map (fun p => p.1))

/-- `calculate_performance` of src/app.py (lines 151-156): reads
Total Wins / Total Losses / Total Goals Scored with `.get(_, 0)` and the
divisor with `.get('Total Games', 1)`; the default 1 applies only when the
key is absent, and a stored value of 0 reaches the division, which then
raises ZeroDivisionError exactly as Python integer division by zero does.
The quotient is modelled exactly in ℚ. -/
def calculate_performance (stats_dict : PyVal) (_season : String) :
    Except PyErr Rat := do
  let total_wins ← stats_dict.getD "Total Wins" (.int 0) >>= PyVal.asInt
  let total_losses ← stats_dict.getD "Total Losses" (.int 0) >>= PyVal.asInt
  let total_goals_scored ←
    stats_dict.getD "Total Goals Scored" (.int 0) >>= PyVal.asInt
  let total_games ← stats_dict.getD "Total Games" (.int 1) >>= PyVal.asInt
  if total_games = 0 then .error .zeroDivisionError
  else pure (((total_wins - total_losses + total_goals_scored : Int) : Rat) /
             ((total_games : Int) : Rat))

/-- The team record of the spec's division-by-zero test vector: a
normalized team record with 10 wins, 2 losses, 30 goals scored and a
recorded `Total Games` of 0. -/
def zeroGamesRecord : PyVal :=
  .dict [("Total Wins", .int 10),
         ("Total Losses", .int 2),
         ("Total Goals Scored", .int 30),
         ("Total Games", .int 0)]

/-!
## Name resolver (src/utils.py, `get_player_stats_from_api`, lines 28-58)

The external pieces are abstracted exactly at the API boundary:
`strip` stands for the `unidecode` transliteration applied to both the
query and each candidate's display name, and `fetch` stands for one
API request at a fixed season and league, returning the (possibly empty)
`response` list of candidate records.
-/

/-- Levenshtein edit distance between two character sequences, the
`distance` function of the Levenshtein package used at line 52. -/
def lev : List Char → List Char → Nat
  | [], ys => ys.length
  | x :: xs, [] => (x :: xs).length
  | x :: xs, y :: ys =>
      if x = y then lev xs ys
      else 1 + min (lev xs ys) (min (lev (x :: xs) ys) (lev xs (y :: ys)))
termination_by xs ys => xs.length + ys.length

/-- The key function of the `min(...)` call at lines 51-52: the
Levenshtein distance between the current search name and the
diacritic-stripped display name `unidecode(player['player']['name'])`
of a candidate; a candidate without a string name fails the
transliteration (TypeError), as `unidecode` does on non-strings. -/
def nameKey (strip : String → String) (search_name : String) (c : PyVal) :
    Except PyErr Nat := do
  let v ← c.getItem "player" >>= (fun p => p.getItem "name")
  match v with
  | .str s => pure (lev search_name.toList ((strip s).toList))
  | _ => .error .typeError

/-- The scanning phase of Python's `min(iterable, key=...)`: keeps the
current best and replaces it only on a strictly smaller key, so the first
element attaining the minimum wins. -/
def minByGo (key : PyVal → Except PyErr Nat) (best : PyVal) (bestK : Nat) :
    List PyVal → Except PyErr PyVal
  | [] => .ok best
  | y :: ys => do
      let ky ← key y
      if ky < bestK then minByGo key y ky ys else minByGo key best bestK ys

/-- Python `min(players_data, key=...)` (line 51); ValueError on an empty
sequence (never reached: the loop guards on a non-empty response). -/
def pyMin (key : PyVal → Except PyErr Nat) : List PyVal → Except PyErr PyVal
  | [] => .error .valueError
  | x :: xs => do
      let kx ← key x
      minByGo key x kx xs

/-- The `while len(search_name) > 0` trimming loop of lines 40-56,
recursing on consecutively shorter search names (`search_name[1:]`
removes the first character); returns the best candidate of the first
non-empty response, or None once the search name is exhausted. -/
def resolveLoop (strip : String → String) (fetch : String → List PyVal) :
    List Char → Except PyErr (Option PyVal)
  | [] => .ok Option.none
  | c :: rest =>
      let s := String.mk (c :: rest)
      match fetch s with
      | [] => resolveLoop strip fetch rest
      | x :: xs => do
          let best ← pyMin (nameKey strip s) (x :: xs)
          pure (some best)

/-- `get_player_stats_from_api` (lines 28-58): transliterates the query
with `unidecode` (line 38) and runs the trimming loop on it. -/
def get_player_stats_from_api (strip : String → String)
    (fetch : String → List PyVal) (player_name : String) :
    Except PyErr (Option PyVal) :=
  resolveLoop strip fetch (strip player_name).toList

/-- Instrumented twin of `resolveLoop`: the sequence of query strings the
loop hands to `fetch`, in order, mirroring the loop structure of
lines 40-56 step for step (one entry per iteration; the loop stops
trimming as soon as a fetch returns a non-empty response). -/
def resolveTrace (fetch : String → List PyVal) : List Char → List String
  | [] => []
  | c :: rest =>
      let s := String.mk (c :: rest)
      s :: (match fetch s with
            | [] => resolveTrace fetch rest
            | _ :: _ => [])

/-!
## Player statistics (src/utils.py, `get_player_stats`, lines 148-224)
-/

/-- Accumulator loop of Python's `s.split(" ")` with an explicit
single-character separator: cut at every separator occurrence, keeping
empty pieces. -/
def pySplitGo (sep : Char) : List Char → List Char → List (List Char)
  | [], cur => [cur.reverse]
  | c :: rest, cur =>
      if c = sep then cur.reverse :: pySplitGo sep rest []
      else pySplitGo sep rest (c :: cur)

/-- Python `player_full_name.split(" ")` (line 157): always returns a
non-empty list; the empty string yields `[""]`, and consecutive
separators yield empty pieces. -/
def pySplit (s : String) : List String :=
  (pySplitGo ' ' s.toList []).map String.mk

/-- The name-splitting policy of lines 155-165: a single token keeps an
empty first-name component; with two or more tokens, all but the last are
joined with spaces (`" ".join(names[:-1])`) as the first-name component
and the last token is the surname. `pySplit` never returns an empty list,
so the empty-list case is unreachable. -/
def splitName (player_full_name : String) : String × String :=
  match pySplit player_full_name with
  | [] => ("", "")
  | [n] => ("", n)
  | names => (String.intercalate " " names.dropLast, names.getLastD "")

/-- The search string of the initial resolution attempt (line 168):
`first_name + " " + last_name`. -/
def initialSearchString (player_full_name : String) : String :=
  (splitName player_full_name).1 ++ " " ++ (splitName player_full_name).2

/-- The flat player record built at lines 200-224 from the identity
fields and the fourteen statistic variables; the seven
`x if x is not None else 0` guards of lines 216-222 sit in the dict
literal exactly as in the source (the assists guard of line 186 is
applied earlier, in `normalizePlayer`). -/
def mkPlayerRecord (nm ph tlogo natl tid gt ga st son da ds kp pa dw tt ti tb fd fc : PyVal) : PyVal :=
  .dict [
    ("Player", .dict [
      ("Name", nm),
      ("Photo", ph),
      ("Team Logo", tlogo),
      ("Nationality", natl),
      ("Team", tid)]),
    ("Stats", .dict [
      ("Goals", gt),
      ("Assists", ga),
      ("Total Shots", st),
      ("Shots on Target", son),
      ("Dribble Attempts", da),
      ("Dribble Successes", ds),
      ("Key Passes", kp),
      ("Pass Success Rate", if pa.isNone then .int 0 else pa),
      ("Duels Won", if dw.isNone then .int 0 else dw),
      ("Total Tackles", if tt.isNone then .int 0 else tt),
      ("Interceptions", if ti.isNone then .int 0 else ti),
      ("Blocks", if tb.isNone then .int 0 else tb),
      ("Fouls Drawn", if fd.isNone then .int 0 else fd),
      ("Fouls Committed", if fc.isNone then .int 0 else fc)])]

/-- The first element of the candidate's statistics sequence,
`player_data['statistics'][0]` (line 180). -/
def stats0 (player_data : PyVal) : Except PyErr PyVal :=
  player_data.getItem "statistics" >>= (fun l => pyIndex l 0)

/-- The normalization phase of `get_player_stats` (lines 178-224),
applied to the resolved candidate `player_data`: reads each statistic
from its fixed nested path in source order (lines 185-198), then builds
the flat record, reading the identity fields during dict construction
(lines 200-207). -/
def normalizePlayer (player_data : PyVal) : Except PyErr PyVal := do
  let player ← player_data.getItem "player"
  let stats ← stats0 player_data
  let total_goals ← stats.getItem "goals" >>= (fun v => v.getItem "total")
  let assistsRaw ← stats.getItem "goals" >>= (fun v => v.getItem "assists")
  let total_assists := if assistsRaw.isNone then PyVal.int 0 else assistsRaw
  let total_shots ← stats.getItem "shots" >>= (fun v => v.getItem "total")
  let shots_on_target ← stats.getItem "shots" >>= (fun v => v.getItem "on")
  let dribbles_attempts ← stats.getItem "dribbles" >>= (fun v => v.getItem "attempts")
  let dribbles_success ← stats.getItem "dribbles" >>= (fun v => v.getItem "success")
  let key_passes ← stats.getItem "passes" >>= (fun v => v.getItem "key")
  let pass_accuracy ← stats.getItem "passes" >>= (fun v => v.getD "accuracy" .none)
  let duels_won ← stats.getItem "duels" >>= (fun v => v.getD "won" .none)
  let tackles_total ← stats.getItem "tackles" >>= (fun v => v.getD "total" .none)
  let tackles_interceptions ← stats.getItem "tackles" >>= (fun v => v.getItem "interceptions")
  let tackles_blocks ← stats.getItem "tackles" >>= (fun v => v.getItem "blocks")
  let fouls_drawn ← stats.getItem "fouls" >>= (fun v => v.getItem "drawn")
  let fouls_committed ← stats.getItem "fouls" >>= (fun v => v.getItem "committed")
  let nm ← player.getItem "name"
  let ph ← player.getItem "photo"
  let tlogo ← stats.getItem "team" >>= (fun v => v.getItem "logo")
  let natl ← player.getItem "nationality"
  let tid ← stats.getItem "team" >>= (fun v => v.getItem "id")
  pure (mkPlayerRecord nm ph tlogo natl tid total_goals total_assists
    total_shots shots_on_target dribbles_attempts dribbles_success key_passes
    pass_accuracy duels_won tackles_total tackles_interceptions tackles_blocks
    fouls_drawn fouls_committed)

/-- `get_player_stats` (lines 150-224): league check, name split, initial
resolution with `first_name + " " + last_name`, one fallback pass with
the surname only, then either the not-found message or normalization. -/
def get_player_stats (strip : String → String)
    (fetch : String → List PyVal)
    (player_full_name season league_name : String) : Except PyErr PyVal :=
  match leagueLookup league_name with
  | Option.none => .ok (.str (invalidLeagueMsg league_name))
  | some league_id =>
      if league_id = 0 then .ok (.str (invalidLeagueMsg league_name))
      else do
        let first_try ←
          get_player_stats_from_api strip fetch (initialSearchString player_full_name)
        let player_data ←
          match first_try with
          | some d => pure (some d)
          | Option.none =>
              get_player_stats_from_api strip fetch (splitName player_full_name).2
        match player_data with
        | Option.none =>
            .ok (.str ("No stats found for " ++ player_full_name ++
                       " in the " ++ season ++ " season."))
        | some d => normalizePlayer d

/-!
## Team statistics (src/utils.py, `get_club_stats_from_api` lines 61-77,
`get_team_stats` lines 227-346)
-/

/-- `get_club_stats_from_api` (lines 61-77), applied to the decoded JSON
body of the team-statistics request: returns the `response` value when it
is truthy, and Python None otherwise (also when the key is absent). -/
def get_club_stats_from_api (response_data : PyVal) : PyVal :=
  match response_data with
  | .dict entries =>
      match lookupOpt entries "response" with
      | some v => if pyTruthy v then v else PyVal.none
      | Option.none => PyVal.none
  | _ => PyVal.none

/-- Python dict assignment `d[k] = v` on an insertion-ordered dict: the
first entry holding `k` keeps its position with the new value; a fresh
key is appended at the end (Python 3.7+ dict semantics). -/
def dictInsert : List (String × PyVal) → String → PyVal → List (String × PyVal)
  | [], k, v => [(k, v)]
  | (k', v') :: rest, k, v =>
      if k' = k then (k, v) :: rest else (k', v') :: dictInsert rest k v

/-- The body of the lineup loop of lines 297-300, one iteration per list
element: read `formation` and `played` and assign
`lineup_info[formation] = played`. Formation labels are the dict keys,
which this embedding models as strings, matching the API's formation
strings. -/
def reduceLineupsGo : List PyVal → List (String × PyVal) →
    Except PyErr (List (String × PyVal))
  | [], acc => .ok acc
  | item :: rest, acc => do
      let formation_deployed ← item.getItem "formation"
      let times_deployed ← item.getItem "played"
      match formation_deployed with
      | .str s => reduceLineupsGo rest (dictInsert acc s times_deployed)
      | _ => .error .typeError

/-- The lineup reduction of lines 295-300: `lineup_info = {}` followed by
the indexing loop over `stats['lineups']`; `len(...)` and integer
indexing require a sequence. -/
def reduceLineups : PyVal → Except PyErr (List (String × PyVal))
  | .list items => reduceLineupsGo items []
  | _ => .error .typeError

/-- A fixed nested read `v[k1][k2]...` as chained in the source. -/
def getPath (v : PyVal) : List String → Except PyErr PyVal
  | [] => .ok v
  | k :: ks => do
      let w ← v.getItem k
      getPath w ks

/-- `get_team_stats` (lines 228-346), with its two network calls
abstracted by their results: `club_id_result` is what `get_club_id`
returned and `stats_response` is the decoded JSON body handed to
`get_club_stats_from_api`. Note the source's order of checks at
lines 241-245: the membership test `'team' not in club_data` runs before
the `club_data is None` check, so a None `club_data` raises TypeError
and the None check is unreachable. -/
def get_team_stats (club_id_result : Option Int) (stats_response : PyVal)
    (club_name club_country season league_name : String) :
    Except PyErr PyVal :=
  match leagueLookup league_name with
  | Option.none => .ok (.str (invalidLeagueMsg league_name))
  | some league_id =>
      if league_id = 0 then .ok (.str (invalidLeagueMsg league_name))
      else
        match club_id_result with
        | Option.none =>
            .ok (.str ("No club found for " ++ club_name ++ " in " ++
                       club_country ++ "."))
        | some _ => do
            let club_data := get_club_stats_from_api stats_response
            let has_team ← pyContains club_data "team"
            if !has_team then .ok (.str "Unexpected API response format.")
            else if club_data.isNone then
              .ok (.str ("No stats found for " ++ club_name ++ " in the " ++
                         season ++ " season."))
            else do
              let club ← club_data.getItem "team"
              let total_played ← getPath club_data ["fixtures", "played", "total"]
              let total_wins_home ← getPath club_data ["fixtures", "wins", "home"]
              let total_wins_away ← getPath club_data ["fixtures", "wins", "away"]
              let total_wins ← getPath club_data ["fixtures", "wins", "total"]
              let total_draws_home ← getPath club_data ["fixtures", "draws", "home"]
              let total_draws_away ← getPath club_data ["fixtures", "draws", "away"]
              let total_draws ← getPath club_data ["fixtures", "draws", "total"]
              let total_loses_home ← getPath club_data ["fixtures", "loses", "home"]
              let total_loses_away ← getPath club_data ["fixtures", "loses", "away"]
              let total_loses ← getPath club_data ["fixtures", "loses", "total"]
              let club_form ← club_data.getItem "form"
              let total_goals_scored_home ← getPath club_data ["goals", "for", "total", "home"]
              let total_goals_scored_away ← getPath club_data ["goals", "for", "total", "away"]
              let total_goals_scored ← getPath club_data ["goals", "for", "total", "total"]
              let goals_scored_average_home ← getPath club_data ["goals", "for", "average", "home"]
              let goals_scored_average_away ← getPath club_data ["goals", "for", "average", "away"]
              let goals_scored_average_total ← getPath club_data ["goals", "for", "average", "total"]
              let total_goals_conceded_home ← getPath club_data ["goals", "against", "total", "home"]
              let total_goals_conceded_away ← getPath club_data ["goals", "against", "total", "away"]
              let total_goals_conceded ← getPath club_data ["goals", "against", "total", "total"]
              let goals_conceded_average_home ← getPath club_data ["goals", "against", "average", "home"]
              let goals_conceded_average_away ← getPath club_data ["goals", "against", "average", "away"]
              let goals_conceded_average_total ← getPath club_data ["goals", "against", "average", "total"]
              let longest_win_streak ← getPath club_data ["biggest", "streak", "wins"]
              let longest_draw_streak ← getPath club_data ["biggest", "streak", "draws"]
              let longest_lose_streak ← getPath club_data ["biggest", "streak", "loses"]
              let biggest_win_home ← getPath club_data ["biggest", "wins", "home"]
              let biggest_win_away ← getPath club_data ["biggest", "wins", "away"]
              let biggest_lose_home ← getPath club_data ["biggest", "loses", "home"]
              let biggest_lose_away ← getPath club_data ["biggest", "loses", "away"]
              let total_clean_sheets_home ← getPath club_data ["clean_sheet", "home"]
              let total_clean_sheets_away ← getPath club_data ["clean_sheet", "away"]
              let total_clean_sheets ← getPath club_data ["clean_sheet", "total"]
              let failed_to_score_home ← getPath club_data ["failed_to_score", "home"]
              let failed_to_score_away ← getPath club_data ["failed_to_score", "away"]
              let failed_to_score_total ← getPath club_data ["failed_to_score", "total"]
              let lineups ← club_data.getItem "lineups"
              let lineup_info ← reduceLineups lineups
              let club_name_val ← club.getItem "name"
              let club_logo_val ← club.getItem "logo"
              pure (.dict [
                ("Club", .dict [
                  ("Name", club_name_val),
                  ("Logo", club_logo_val)]),
                ("Stats", .dict [
                  ("Total Games", total_played),
                  ("Total Wins Home", total_wins_home),
                  ("Total Wins Away", total_wins_away),
                  ("Total Wins", total_wins),
                  ("Total Draws Home", total_draws_home),
                  ("Total Draws Away", total_draws_away),
                  ("Total Draws", total_draws),
                  ("Total Losses Home", total_loses_home),
                  ("Total Losses Away", total_loses_away),
                  ("Total Losses", total_loses),
                  ("Club Form", club_form),
                  ("Total Home Goals Scored", total_goals_scored_home),
                  ("Total Away Goals Scored", total_goals_scored_away),
                  ("Total Goals Scored", total_goals_scored),
                  ("Average Home Goals Scored", goals_scored_average_home),
                  ("Average Away Goals Scored", goals_scored_average_away),
                  ("Average Goals Scored", goals_scored_average_total),
                  ("Total Home Goals Conceded", total_goals_conceded_home),
                  ("Total Away Goals Conceded", total_goals_conceded_away),
                  ("Total Goals Conceded", total_goals_conceded),
                  ("Average Home Goals Conceded", goals_conceded_average_home),
                  ("Average Away Goals Conceded", goals_conceded_average_away),
                  ("Average Goals Conceded", goals_conceded_average_total),
                  ("Longest Win Streak", longest_win_streak),
                  ("Longest Draw Streak", longest_draw_streak),
                  ("Longest Lose Streak", longest_lose_streak),
                  ("Biggest Home Win", biggest_win_home),
                  ("Biggest Away Win", biggest_win_away),
                  ("Biggest Home Loss", biggest_lose_home),
                  ("Biggest Away Loss", biggest_lose_away),
                  ("Total Home Clean Sheets", total_clean_sheets_home),
                  ("Total Away Clean Sheets", total_clean_sheets_away),
                  ("Total Clean Sheets", total_clean_sheets),
                  ("Times Failed to Score at Home", failed_to_score_home),
                  ("Times Failed to Score Away", failed_to_score_away),
                  ("Total Times Failed to Score", failed_to_score_total),
                  ("Lineups", .dict lineup_info)])])

/-!
## Reference functions and concrete inputs used by the theorems
-/

/-- Pure reference form of Python's first-minimum scan (`min` with a key
replaces the current best only on a strictly smaller key, so the first
element attaining the minimum wins). -/
def firstMinBy (kf : PyVal → Nat) (best : PyVal) : List PyVal → PyVal
  | [] => best
  | y :: ys =>
      if kf y < kf best then firstMinBy kf y ys else firstMinBy kf best ys

/-- One element of a team candidate's lineups list: a dict with a string
formation label and a times-played value. -/
def mkLineup (formation : String) (played : PyVal) : PyVal :=
  .dict [("formation", .str formation), ("played", played)]

/-- Read one statistic of a normalized player record:
`record["Stats"][k]`. -/
def statOf (r : PyVal) (k : String) : Except PyErr PyVal :=
  r.getItem "Stats" >>= (fun s => s.getItem k)

/-- A well-formed player candidate whose assists field is present but
null, used as a concrete test input. -/
def playerCand : PyVal :=
  .dict [
    ("player", .dict [
      ("name", .str "Rico Lewis"),
      ("photo", .str "p.png"),
      ("nationality", .str "England")]),
    ("statistics", .list [.dict [
      ("goals", .dict [("total", .int 2), ("assists", PyVal.none)]),
      ("shots", .dict [("total", .int 20), ("on", .int 9)]),
      ("dribbles", .dict [("attempts", .int 30), ("success", .int 15)]),
      ("passes", .dict [("key", .int 12), ("accuracy", .int 81)]),
      ("duels", .dict [("won", .int 50)]),
      ("tackles", .dict [("total", .int 40), ("interceptions", .int 10),
                         ("blocks", .int 3)]),
      ("fouls", .dict [("drawn", .int 8), ("committed", .int 5)]),
      ("team", .dict [("id", .int 50), ("logo", .str "l.png")])]])]

/-- The record `normalizePlayer` produces for `playerCand`. -/
def playerCandRecord : PyVal :=
  mkPlayerRecord (.str "Rico Lewis") (.str "p.png") (.str "l.png")
    (.str "England") (.int 50) (.int 2) (.int 0) (.int 20) (.int 9)
    (.int 30) (.int 15) (.int 12) (.int 81) (.int 50) (.int 40) (.int 10)
    (.int 3) (.int 8) (.int 5)

/-- `playerCand` with a second statistics element appended (identical on
`statistics[0]` and on the identity fields). -/
def playerCandExtra : PyVal :=
  .dict [
    ("player", .dict [
      ("name", .str "Rico Lewis"),
      ("photo", .str "p.png"),
      ("nationality", .str "England")]),
    ("statistics", .list [.dict [
      ("goals", .dict [("total", .int 2), ("assists", PyVal.none)]),
      ("shots", .dict [("total", .int 20), ("on", .int 9)]),
      ("dribbles", .dict [("attempts", .int 30), ("success", .int 15)]),
      ("passes", .dict [("key", .int 12), ("accuracy", .int 81)]),
      ("duels", .dict [("won", .int 50)]),
      ("tackles", .dict [("total", .int 40), ("interceptions", .int 10),
                         ("blocks", .int 3)]),
      ("fouls", .dict [("drawn", .int 8), ("committed", .int 5)]),
      ("team", .dict [("id", .int 50), ("logo", .str "l.png")])],
      .dict [("goals", .dict [("total", .int 99)])]])]

/-- `playerCand` with the `total` key removed from its shots dict. -/
def noShotsTotalCand : PyVal :=
  .dict [
    ("player", .dict [
      ("name", .str "Rico Lewis"),
      ("photo", .str "p.png"),
      ("nationality", .str "England")]),
    ("statistics", .list [.dict [
      ("goals", .dict [("total", .int 2), ("assists", PyVal.none)]),
      ("shots", .dict [("on", .int 9)]),
      ("dribbles", .dict [("attempts", .int 30), ("success", .int 15)]),
      ("passes", .dict [("key", .int 12), ("accuracy", .int 81)]),
      ("duels", .dict [("won", .int 50)]),
      ("tackles", .dict [("total", .int 40), ("interceptions", .int 10),
                         ("blocks", .int 3)]),
      ("fouls", .dict [("drawn", .int 8), ("committed", .int 5)]),
      ("team", .dict [("id", .int 50), ("logo", .str "l.png")])]])]

/-- `playerCand` with a present-but-null `goals.total`. -/
def nullGoalsCand : PyVal :=
  .dict [
    ("player", .dict [
      ("name", .str "Rico Lewis"),
      ("photo", .str "p.png"),
      ("nationality", .str "England")]),
    ("statistics", .list [.dict [
      ("goals", .dict [("total", PyVal.none), ("assists", .int 1)]),
      ("shots", .dict [("total", .int 20), ("on", .int 9)]),
      ("dribbles", .dict [("attempts", .int 30), ("success", .int 15)]),
      ("passes", .dict [("key", .int 12), ("accuracy", .int 81)]),
      ("duels", .dict [("won", .int 50)]),
      ("tackles", .dict [("total", .int 40), ("interceptions", .int 10),
                         ("blocks", .int 3)]),
      ("fouls", .dict [("drawn", .int 8), ("committed", .int 5)]),
      ("team", .dict [("id", .int 50), ("logo", .str "l.png")])]])]

/-- A candidate whose statistics sequence is empty. -/
def emptyStatsCand : PyVal :=
  .dict [
    ("player", .dict [
      ("name", .str "Rico Lewis"),
      ("photo", .str "p.png"),
      ("nationality", .str "England")]),
    ("statistics", .list [])]

/-- A minimal candidate carrying only a display name, for exercising the
resolver. -/
def nameOnlyCand (nm : String) : PyVal :=
  .dict [("player", .dict [("name", .str nm)])]

/-!
## Helper lemmas
-/

/-- Inversion of a successful `Except` bind. -/
theorem ebind_ok {α β : Type} {x : Except PyErr α} {f : α → Except PyErr β}
    {b : β} : x >>= f = .ok b ↔ ∃ a, x = .ok a ∧ f a = .ok b := by
  cases x <;> simp [Bind.bind, Except.bind]

/-- Inversion of a successful `Except` pure. -/
theorem epure_ok {α : Type} {a b : α} :
    (pure a : Except PyErr α) = .ok b ↔ a = b := by
  simp [pure, Except.pure]

/-- A successful `normalizePlayer` run determines a successful read at
every one of its fixed nested paths, and the result record is the flat
record built from those reads. -/
theorem normalizePlayer_ok_inv {c r : PyVal} (h : normalizePlayer c = .ok r) :
    ∃ player stats gt ga st son da ds kp pa dw tt ti tb fd fc nm ph tlogo natl tid,
      c.getItem "player" = .ok player ∧
      stats0 c = .ok stats ∧
      (stats.getItem "goals" >>= (fun v => v.getItem "total")) = .ok gt ∧
      (stats.getItem "goals" >>= (fun v => v.getItem "assists")) = .ok ga ∧
      (stats.getItem "shots" >>= (fun v => v.getItem "total")) = .ok st ∧
      (stats.getItem "shots" >>= (fun v => v.getItem "on")) = .ok son ∧
      (stats.getItem "dribbles" >>= (fun v => v.getItem "attempts")) = .ok da ∧
      (stats.getItem "dribbles" >>= (fun v => v.getItem "success")) = .ok ds ∧
      (stats.getItem "passes" >>= (fun v => v.getItem "key")) = .ok kp ∧
      (stats.getItem "passes" >>= (fun v => v.getD "accuracy" .none)) = .ok pa ∧
      (stats.getItem "duels" >>= (fun v => v.getD "won" .none)) = .ok dw ∧
      (stats.getItem "tackles" >>= (fun v => v.getD "total" .none)) = .ok tt ∧
      (stats.getItem "tackles" >>= (fun v => v.getItem "interceptions")) = .ok ti ∧
      (stats.getItem "tackles" >>= (fun v => v.getItem "blocks")) = .ok tb ∧
      (stats.getItem "fouls" >>= (fun v => v.getItem "drawn")) = .ok fd ∧
      (stats.getItem "fouls" >>= (fun v => v.getItem "committed")) = .ok fc ∧
      player.getItem "name" = .ok nm ∧
      player.getItem "photo" = .ok ph ∧
      (stats.getItem "team" >>= (fun v => v.getItem "logo")) = .ok tlogo ∧
      player.getItem "nationality" = .ok natl ∧
      (stats.getItem "team" >>= (fun v => v.getItem "id")) = .ok tid ∧
      r = mkPlayerRecord nm ph tlogo natl tid gt
            (if ga.isNone then PyVal.int 0 else ga) st son da ds kp pa dw tt
            ti tb fd fc := by
  unfold normalizePlayer at h
  simp only [ebind_ok, epure_ok] at h
  obtain ⟨player, h1, stats, h2, gt, h3, ga, h4, st, h5, son, h6, da, h7,
    ds, h8, kp, h9, pa, h10, dw, h11, tt, h12, ti, h13, tb, h14, fd, h15,
    fc, h16, nm, h17, ph, h18, tlogo, h19, natl, h20, tid, h21, hr⟩ := h
  simp only [ebind_ok]
  exact ⟨player, stats, gt, ga, st, son, da, ds, kp, pa, dw, tt, ti, tb, fd,
    fc, nm, ph, tlogo, natl, tid, h1, h2, h3, h4, h5, h6, h7, h8, h9, h10,
    h11, h12, h13, h14, h15, h16, h17, h18, h19, h20, h21, hr.symm⟩

/-- Rewriting a bind of a known-successful computation. -/
theorem ok_bind {α β : Type} (a : α) (f : α → Except PyErr β) :
    (Except.ok a : Except PyErr α) >>= f = f a := rfl

/-- Rebuilding a string from its character list. -/
theorem string_mk_toList (s : String) : String.mk s.toList = s := rfl

/-- The scanning phase of Python's `min` computes the first-minimum
reference function once every key evaluation succeeds. -/
theorem minByGo_eq (kf : PyVal → Nat) (key : PyVal → Except PyErr Nat)
    (ys : List PyVal) :
    ∀ best bestK, bestK = kf best → (∀ y ∈ ys, key y = .ok (kf y)) →
    minByGo key best bestK ys = .ok (firstMinBy kf best ys) := by
  induction ys with
  | nil => intro best bestK hb _; simp [minByGo, firstMinBy]
  | cons y ys ih =>
      intro best bestK hb hys
      have hy : key y = .ok (kf y) := hys y (by simp)
      have hrest : ∀ z ∈ ys, key z = .ok (kf z) := fun z hz => hys z (by simp [hz])
      simp only [minByGo, hy, firstMinBy, hb]
      by_cases hlt : kf y < kf best
      · simp [hlt, Bind.bind, Except.bind, ih y (kf y) rfl hrest]
      · simp [hlt, Bind.bind, Except.bind, ih best (kf best) rfl hrest]

/-- The first-minimum reference function returns a minimizer. -/
theorem firstMinBy_le (kf : PyVal → Nat) (ys : List PyVal) :
    ∀ best, ∀ a ∈ best :: ys, kf (firstMinBy kf best ys) ≤ kf a := by
  induction ys with
  | nil => intro best a ha; simp at ha; simp [firstMinBy, ha]
  | cons y ys ih =>
      intro best a ha
      simp only [List.mem_cons] at ha
      by_cases hlt : kf y < kf best
      · simp only [firstMinBy, if_pos hlt]
        rcases ha with ha | ha | ha
        · exact le_trans (le_trans (ih y y (by simp)) (le_of_lt hlt))
            (le_of_eq (by rw [ha]))
        · exact ih y a (by simp [ha])
        · exact ih y a (by simp [ha])
      · simp only [firstMinBy, if_neg hlt]
        rcases ha with ha | ha | ha
        · exact ih best a (by simp [ha])
        · subst ha
          exact le_trans (ih best best (by simp)) (le_of_not_lt hlt)
        · exact ih best a (by simp [ha])

/-- The first-minimum reference function returns the first element
attaining the minimum: every element placed before it in the scanned list
has a strictly larger key. -/
theorem firstMinBy_split (kf : PyVal → Nat) (ys : List PyVal) :
    ∀ best, ∃ l1 l2, best :: ys = l1 ++ (firstMinBy kf best ys) :: l2 ∧
      ∀ a ∈ l1, kf (firstMinBy kf best ys) < kf a := by
  induction ys with
  | nil => intro best; exact ⟨[], [], by simp [firstMinBy], by simp⟩
  | cons y ys ih =>
      intro best
      by_cases hlt : kf y < kf best
      · obtain ⟨m1, m2, hsplit, hstrict⟩ := ih y
        refine ⟨best :: m1, m2, ?_, ?_⟩
        · simp only [firstMinBy, if_pos hlt]
          rw [List.cons_append, ← hsplit]
        · intro a ha
          simp only [firstMinBy, if_pos hlt]
          rcases List.mem_cons.mp ha with ha | ha
          · subst ha
            exact lt_of_le_of_lt (firstMinBy_le kf ys y y (by simp)) hlt
          · exact hstrict a ha
      · obtain ⟨m1, m2, hsplit, hstrict⟩ := ih best
        cases m1 with
        | nil =>
            simp only [List.nil_append] at hsplit
            injection hsplit with h1 h2
            refine ⟨[], y :: ys, ?_, by simp⟩
            simp only [firstMinBy, if_neg hlt, List.nil_append, ← h1]
        | cons b m1p =>
            have hinj := hsplit
            rw [List.cons_append] at hinj
            injection hinj with h1 h2
            refine ⟨best :: y :: m1p, m2, ?_, ?_⟩
            · simp only [firstMinBy, if_neg hlt, List.cons_append]
              rw [← h2]
            · intro a ha
              simp only [firstMinBy, if_neg hlt]
              have hrb : kf (firstMinBy kf best ys) < kf best := by
                have hx := hstrict b (by simp)
                rw [← h1] at hx
                exact hx
              rcases List.mem_cons.mp ha with ha | ha
              · subst ha; exact hrb
              rcases List.mem_cons.mp ha with ha | ha
              · subst ha
                exact lt_of_lt_of_le hrb (le_of_not_lt hlt)
              · exact hstrict a (by simp [ha])

/-- When every trimmed query fetches an empty response, the loop returns
None and its trace is exactly the successive first-character drops of the
query. -/
theorem resolveLoop_all_empty (strip : String → String)
    (fetch : String → List PyVal) (l : List Char)
    (h : ∀ n, fetch (String.mk (l.drop n)) = []) :
    resolveLoop strip fetch l = .ok Option.none ∧
    resolveTrace fetch l =
      (List.range l.length).map (fun n => String.mk (l.drop n)) := by
  induction l with
  | nil => simp [resolveLoop, resolveTrace]
  | cons c rest ih =>
      have h0 : fetch (String.mk (c :: rest)) = [] := h 0
      have hrest : ∀ n, fetch (String.mk (rest.drop n)) = [] := fun n => h (n + 1)
      obtain ⟨ih1, ih2⟩ := ih hrest
      refine ⟨?_, ?_⟩
      · simp only [resolveLoop]
        rw [h0]
        exact ih1
      · simp only [resolveTrace]
        rw [h0, ih2]
        simp only [List.length_cons, List.range_succ_eq_map, List.map_cons,
          List.map_map, List.drop_zero]
        rfl

/-- Looking a key up after a Python dict assignment. -/
theorem lookupOpt_dictInsert (a : List (String × PyVal)) (k : String)
    (v : PyVal) (q : String) :
    lookupOpt (dictInsert a k v) q =
      if k = q then some v else lookupOpt a q := by
  induction a with
  | nil => simp [dictInsert, lookupOpt]
  | cons e rest ih =>
      obtain ⟨k0, v0⟩ := e
      by_cases h0 : k0 = k
      · subst h0
        simp only [dictInsert, if_pos rfl, lookupOpt]
        by_cases hq : k0 = q <;> simp [hq]
      · simp only [dictInsert, if_neg h0, lookupOpt]
        by_cases hq : k0 = q
        · subst hq
          have hne : ¬ k = k0 := fun hx => h0 hx.symm
          simp [hne]
        · simp [hq, ih]

/-- Looking a key up after a sequence of Python dict assignments: the
last assignment to the key wins. -/
theorem lookupOpt_foldl_dictInsert (ps : List (String × PyVal)) :
    ∀ (init : List (String × PyVal)) (q : String),
    lookupOpt (ps.foldl (fun a e => dictInsert a e.1 e.2) init) q =
      ps.foldl (fun r e => if e.1 = q then some e.2 else r)
        (lookupOpt init q) := by
  induction ps with
  | nil => intro init q; rfl
  | cons e rest ih =>
      intro init q
      simp only [List.foldl_cons]
      rw [ih, lookupOpt_dictInsert]

/-- On a list of well-formed lineup dicts the loop is the fold of Python
dict assignments. -/
theorem reduceLineupsGo_map (ps : List (String × PyVal)) :
    ∀ acc : List (String × PyVal),
    reduceLineupsGo (ps.map (fun q => mkLineup q.1 q.2)) acc =
      .ok (ps.foldl (fun a e => dictInsert a e.1 e.2) acc) := by
  induction ps with
  | nil => intro acc; rfl
  | cons e rest ih =>
      intro acc
      simp only [List.map_cons, reduceLineupsGo, mkLineup, PyVal.getItem,
        lookupD, Bind.bind, Except.bind]
      simp only [List.foldl_cons]
      exact ih _

/-!
## Claim theorems
-/

/-- Claim C1: the spec asserts that the derived performance metric divides
by `max(totalGames, 1)` and therefore returns 38.0 on a record with
Total Wins 10, Total Losses 2, Total Goals Scored 30 and Total Games 0.
The code instead divides by `stats_dict.get('Total Games', 1)`, whose
default applies only when the key is absent; with the key present and 0,
the division raises ZeroDivisionError. This theorem evaluates the code at
exactly the spec's test vector. -/
theorem c1_performance_zero_games_raises :
    calculate_performance zeroGamesRecord "2023" =
      .error .zeroDivisionError := rfl

/-- Claim C2: in player normalization, assists, pass-success-rate,
duels-won, total-tackles and interceptions default to 0 when the source
field reads as null, while a failing read of any of the shots, dribbles,
key-passes or fouls fields (e.g. a missing `shots.total`) propagates and
never yields a normalized record. -/
theorem c2_player_defaulting_policy :
    (∀ c r : PyVal, normalizePlayer c = .ok r →
      ((stats0 c >>= (fun s => s.getItem "goals" >>=
          (fun v => v.getItem "assists"))) = .ok PyVal.none →
         statOf r "Assists" = .ok (.int 0)) ∧
      ((stats0 c >>= (fun s => s.getItem "passes" >>=
          (fun v => v.getD "accuracy" .none))) = .ok PyVal.none →
         statOf r "Pass Success Rate" = .ok (.int 0)) ∧
      ((stats0 c >>= (fun s => s.getItem "duels" >>=
          (fun v => v.getD "won" .none))) = .ok PyVal.none →
         statOf r "Duels Won" = .ok (.int 0)) ∧
      ((stats0 c >>= (fun s => s.getItem "tackles" >>=
          (fun v => v.getD "total" .none))) = .ok PyVal.none →
         statOf r "Total Tackles" = .ok (.int 0)) ∧
      ((stats0 c >>= (fun s => s.getItem "tackles" >>=
          (fun v => v.getItem "interceptions"))) = .ok PyVal.none →
         statOf r "Interceptions" = .ok (.int 0))) ∧
    (∀ (c : PyVal) (e : PyErr),
      ((stats0 c >>= (fun s => s.getItem "shots" >>=
          (fun v => v.getItem "total"))) = .error e ∨
       (stats0 c >>= (fun s => s.getItem "shots" >>=
          (fun v => v.getItem "on"))) = .error e ∨
       (stats0 c >>= (fun s => s.getItem "dribbles" >>=
          (fun v => v.getItem "attempts"))) = .error e ∨
       (stats0 c >>= (fun s => s.getItem "dribbles" >>=
          (fun v => v.getItem "success"))) = .error e ∨
       (stats0 c >>= (fun s => s.getItem "passes" >>=
          (fun v => v.getItem "key"))) = .error e ∨
       (stats0 c >>= (fun s => s.getItem "fouls" >>=
          (fun v => v.getItem "drawn"))) = .error e ∨
       (stats0 c >>= (fun s => s.getItem "fouls" >>=
          (fun v => v.getItem "committed"))) = .error e) →
      ∀ r : PyVal, normalizePlayer c ≠ .ok r) := by
  constructor
  · intro c r h
    obtain ⟨player, stats, gt, ga, st, son, da, ds, kp, pa, dw, tt, ti, tb,
      fd, fc, nm, ph, tlogo, natl, tid, h1, h2, h3, h4, h5, h6, h7, h8, h9,
      h10, h11, h12, h13, h14, h15, h16, h17, h18, h19, h20, h21, hr⟩ :=
      normalizePlayer_ok_inv h
    subst hr
    refine ⟨?_, ?_, ?_, ?_, ?_⟩
    · intro hnull
      rw [h2, ok_bind] at hnull
      rw [h4] at hnull
      have hga : ga = PyVal.none := by injection hnull with hx
      subst hga
      simp [statOf, mkPlayerRecord, PyVal.getItem, lookupD, PyVal.isNone,
        Bind.bind, Except.bind]
    · intro hnull
      rw [h2, ok_bind] at hnull
      rw [h10] at hnull
      have hpa : pa = PyVal.none := by injection hnull with hx
      subst hpa
      simp [statOf, mkPlayerRecord, PyVal.getItem, lookupD, PyVal.isNone,
        Bind.bind, Except.bind]
    · intro hnull
      rw [h2, ok_bind] at hnull
      rw [h11] at hnull
      have hdw : dw = PyVal.none := by injection hnull with hx
      subst hdw
      simp [statOf, mkPlayerRecord, PyVal.getItem, lookupD, PyVal.isNone,
        Bind.bind, Except.bind]
    · intro hnull
      rw [h2, ok_bind] at hnull
      rw [h12] at hnull
      have htt : tt = PyVal.none := by injection hnull with hx
      subst htt
      simp [statOf, mkPlayerRecord, PyVal.getItem, lookupD, PyVal.isNone,
        Bind.bind, Except.bind]
    · intro hnull
      rw [h2, ok_bind] at hnull
      rw [h13] at hnull
      have hti : ti = PyVal.none := by injection hnull with hx
      subst hti
      simp [statOf, mkPlayerRecord, PyVal.getItem, lookupD, PyVal.isNone,
        Bind.bind, Except.bind]
  · intro c e hdisj r h
    obtain ⟨player, stats, gt, ga, st, son, da, ds, kp, pa, dw, tt, ti, tb,
      fd, fc, nm, ph, tlogo, natl, tid, h1, h2, h3, h4, h5, h6, h7, h8, h9,
      h10, h11, h12, h13, h14, h15, h16, h17, h18, h19, h20, h21, hr⟩ :=
      normalizePlayer_ok_inv h
    rcases hdisj with hx | hx | hx | hx | hx | hx | hx <;>
      rw [h2, ok_bind] at hx
    · rw [h5] at hx; exact Except.noConfusion hx
    · rw [h6] at hx; exact Except.noConfusion hx
    · rw [h7] at hx; exact Except.noConfusion hx
    · rw [h8] at hx; exact Except.noConfusion hx
    · rw [h9] at hx; exact Except.noConfusion hx
    · rw [h15] at hx; exact Except.noConfusion hx
    · rw [h16] at hx; exact Except.noConfusion hx

/-- Witness for C2: the concrete candidate with a present-but-null
assists field normalizes with Assists 0, and no record equals the output
of normalizing the candidate whose shots dict lacks `total`. -/
theorem c2_player_defaulting_policy_witness :
    statOf playerCandRecord "Assists" = .ok (.int 0) ∧
    normalizePlayer noShotsTotalCand ≠ .ok playerCandRecord :=
  ⟨(c2_player_defaulting_policy.1 playerCand playerCandRecord rfl).1 rfl,
   c2_player_defaulting_policy.2 noShotsTotalCand (.keyError "total")
     (Or.inl rfl) playerCandRecord⟩

/-- Claim C3: when the fetch on the diacritic-stripped query returns a
non-empty candidate list whose members carry string display names, the
resolver returns the candidate minimizing the Levenshtein distance
between the stripped query and the stripped display name, and on ties the
first candidate in API response order (every candidate placed before the
winner has a strictly larger distance). -/
theorem c3_resolver_min_levenshtein (strip : String → String)
    (fetch : String → List PyVal) (player_name : String)
    (kf : PyVal → Nat) (x : PyVal) (xs : List PyVal)
    (hq : (strip player_name).toList ≠ [])
    (hf : fetch (strip player_name) = x :: xs)
    (hnames : ∀ c ∈ x :: xs, ∃ s,
      (c.getItem "player" >>= (fun p => p.getItem "name")) = .ok (.str s) ∧
      kf c = lev (strip player_name).toList ((strip s).toList)) :
    ∃ best l1 l2,
      get_player_stats_from_api strip fetch player_name = .ok (some best) ∧
      x :: xs = l1 ++ best :: l2 ∧
      (∀ c ∈ x :: xs, kf best ≤ kf c) ∧
      (∀ c ∈ l1, kf best < kf c) := by
  obtain ⟨ch, rest, hq2⟩ : ∃ ch rest,
      (strip player_name).toList = ch :: rest := by
    cases h : (strip player_name).toList with
    | nil => exact absurd h hq
    | cons a b => exact ⟨a, b, rfl⟩
  have hkey : ∀ c ∈ x :: xs,
      nameKey strip (strip player_name) c = .ok (kf c) := by
    intro c hc
    obtain ⟨s, hread, hkf⟩ := hnames c hc
    unfold nameKey
    rw [hread]
    simp [Bind.bind, Except.bind, hkf, pure, Except.pure]
  have hmin : pyMin (nameKey strip (strip player_name)) (x :: xs) =
      .ok (firstMinBy kf x xs) := by
    simp only [pyMin]
    rw [hkey x (by simp)]
    simp only [Bind.bind, Except.bind]
    exact minByGo_eq kf _ xs x (kf x) rfl (fun y hy => hkey y (by simp [hy]))
  have hres : get_player_stats_from_api strip fetch player_name =
      .ok (some (firstMinBy kf x xs)) := by
    unfold get_player_stats_from_api
    rw [hq2]
    simp only [resolveLoop]
    rw [show String.mk (ch :: rest) = strip player_name by
      rw [← hq2]; exact string_mk_toList _]
    rw [hf]
    simp only [Bind.bind, Except.bind, hmin, pure, Except.pure]
  obtain ⟨l1, l2, hsplit, hstrict⟩ := firstMinBy_split kf xs x
  exact ⟨firstMinBy kf x xs, l1, l2, hres, hsplit,
    fun c hc => firstMinBy_le kf xs x c hc, hstrict⟩

/-- Witness for C3 at a concrete query, candidate pool and distance
assignment. -/
theorem c3_resolver_min_levenshtein_witness :
    ∃ best l1 l2,
      get_player_stats_from_api id
        (fun _ => [nameOnlyCand "a", nameOnlyCand "a"]) "a" =
        .ok (some best) ∧
      [nameOnlyCand "a", nameOnlyCand "a"] = l1 ++ best :: l2 ∧
      (∀ c ∈ [nameOnlyCand "a", nameOnlyCand "a"],
        (fun _ : PyVal => (0 : Nat)) best ≤ (fun _ : PyVal => (0 : Nat)) c) ∧
      (∀ c ∈ l1,
        (fun _ : PyVal => (0 : Nat)) best < (fun _ : PyVal => (0 : Nat)) c) :=
  c3_resolver_min_levenshtein id
    (fun _ => [nameOnlyCand "a", nameOnlyCand "a"]) "a"
    (fun _ => 0) (nameOnlyCand "a") [nameOnlyCand "a"] (by decide) rfl
    (by
      intro c hc
      simp only [List.mem_cons, List.not_mem_nil, or_false] at hc
      rcases hc with rfl | rfl <;> exact ⟨"a", rfl, by simp [lev]⟩)

/-- Claim C4: when the fetch returns an empty sequence for every trimmed
query, the resolver terminates with None (NotFound) after exactly one
trimming iteration per character of the (diacritic-stripped) query, each
removing the first character, and ends with an empty final query. -/
theorem c4_resolver_notfound_trimming (strip : String → String)
    (fetch : String → List PyVal) (player_name : String)
    (h : ∀ n, fetch (String.mk ((strip player_name).toList.drop n)) = []) :
    get_player_stats_from_api strip fetch player_name = .ok Option.none ∧
    resolveTrace fetch (strip player_name).toList =
      (List.range (strip player_name).length).map
        (fun n => String.mk ((strip player_name).toList.drop n)) ∧
    (resolveTrace fetch (strip player_name).toList).length =
      (strip player_name).length ∧
    (strip player_name).toList.drop (strip player_name).length = [] := by
  obtain ⟨h1, h2⟩ :=
    resolveLoop_all_empty strip fetch (strip player_name).toList h
  have hlen : (strip player_name).toList.length =
      (strip player_name).length := rfl
  refine ⟨h1, by rw [h2, hlen], ?_, ?_⟩
  · rw [h2, hlen]; simp
  · rw [← hlen]; exact List.drop_length _

/-- Witness for C4: a fetch that always returns nothing, at a two-letter
query. -/
theorem c4_resolver_notfound_trimming_witness :
    get_player_stats_from_api id (fun _ => []) "ab" = .ok Option.none ∧
    resolveTrace (fun _ => []) (id "ab" : String).toList =
      (List.range (id "ab" : String).length).map
        (fun n => String.mk ((id "ab" : String).toList.drop n)) ∧
    (resolveTrace (fun _ => []) (id "ab" : String).toList).length =
      (id "ab" : String).length ∧
    (id "ab" : String).toList.drop (id "ab" : String).length = [] :=
  c4_resolver_notfound_trimming id (fun _ => []) "ab" (fun _ => rfl)

/-- Counterexample for C5: the claim says a single-word input is searched
with the surname alone; for the single-word input "Ronaldo" the initial
search string built at line 168 is `'' + " " + "Ronaldo"`, a leading
space followed by the surname, not the surname alone. -/
theorem c5_single_word_counterexample :
    (pySplit "Ronaldo").length = 1 ∧
    initialSearchString "Ronaldo" ≠ "Ronaldo" ∧
    initialSearchString "Ronaldo" = " Ronaldo" :=
  ⟨by decide, by decide, by decide⟩

/-- Claim C5 (amended): for a single-word input the initial search string
is a single space followed by the surname (the empty first-name component
joined by `+ " " +`); for a multi-word input it is all-but-last tokens
joined with the last token by single spaces; and when the initial
resolution attempt yields nothing, the overall result is exactly that of
one second full pass with the surname-only component. -/
theorem c5_search_passes_amended :
    (∀ w : String, pySplit w = [w] →
       initialSearchString w = " " ++ w) ∧
    (∀ (full a b : String) (rest : List String),
       pySplit full = a :: b :: rest →
       initialSearchString full =
         String.intercalate " " ((a :: b :: rest).dropLast) ++ " " ++
           (a :: b :: rest).getLastD "") ∧
    (∀ (strip : String → String) (fetch : String → List PyVal)
       (full season league : String) (league_id : Nat),
       leagueLookup league = some league_id → league_id ≠ 0 →
       get_player_stats_from_api strip fetch (initialSearchString full) =
         .ok Option.none →
       get_player_stats strip fetch full season league =
         (get_player_stats_from_api strip fetch (splitName full).2 >>=
           fun r2 =>
             match r2 with
             | Option.none =>
                 .ok (.str ("No stats found for " ++ full ++ " in the " ++
                            season ++ " season."))
             | some d => normalizePlayer d)) := by
  refine ⟨?_, ?_, ?_⟩
  · intro w hw
    unfold initialSearchString splitName
    rw [hw]
    simp
  · intro full a b rest h
    unfold initialSearchString splitName
    rw [h]
  · intro strip fetch full season league league_id hlg hnz h1
    simp only [get_player_stats, hlg]
    rw [if_neg hnz]
    rw [h1]
    simp only [Bind.bind, Except.bind]

/-- Witness for C5 at concrete names, a concrete league, and a fetch that
always returns nothing. -/
theorem c5_search_passes_amended_witness :
    initialSearchString "Ronaldo" = " " ++ "Ronaldo" ∧
    initialSearchString "Rico James Lewis" =
      String.intercalate " "
        (("Rico" :: "James" :: ["Lewis"]).dropLast) ++ " " ++
        ("Rico" :: "James" :: ["Lewis"]).getLastD "" ∧
    get_player_stats id (fun _ => []) "Ronaldo" "2023" "Premier League" =
      (get_player_stats_from_api id (fun _ => []) (splitName "Ronaldo").2 >>=
        fun r2 =>
          match r2 with
          | Option.none =>
              .ok (.str ("No stats found for " ++ "Ronaldo" ++ " in the " ++
                         "2023" ++ " season."))
          | some d => normalizePlayer d) :=
  ⟨c5_search_passes_amended.1 "Ronaldo" (by decide),
   c5_search_passes_amended.2.1 "Rico James Lewis" "Rico" "James" ["Lewis"]
     (by decide),
   c5_search_passes_amended.2.2 id (fun _ => []) "Ronaldo" "2023"
     "Premier League" 39 rfl (by decide) rfl⟩

/-- Claim C6: for every well-formed lineups list the reduction is the
fold of Python dict assignments, under which looking up a formation label
returns the payload of its last occurrence in the list (last-write-wins,
not summing); and the spec's three-element example reduces to the mapping
holding 3 for "4-3-3" and 5 for "4-4-2". -/
theorem c6_lineup_last_write_wins :
    (∀ (ps : List (String × PyVal)) (q : String),
      reduceLineups (.list (ps.map (fun e => mkLineup e.1 e.2))) =
        .ok (ps.foldl (fun a e => dictInsert a e.1 e.2) []) ∧
      lookupOpt (ps.foldl (fun a e => dictInsert a e.1 e.2) []) q =
        ps.foldl (fun r e => if e.1 = q then some e.2 else r)
          Option.none) ∧
    reduceLineups (.list [mkLineup "4-3-3" (.int 10),
                          mkLineup "4-4-2" (.int 5),
                          mkLineup "4-3-3" (.int 3)]) =
      .ok [("4-3-3", .int 3), ("4-4-2", .int 5)] := by
  refine ⟨fun ps q => ⟨?_, ?_⟩, rfl⟩
  · simp only [reduceLineups]
    exact reduceLineupsGo_map ps []
  · rw [lookupOpt_foldl_dictInsert]
    rfl

/-- Counterexample for C7: the claim says every produced record maps the
fourteen keys to numeric values; the candidate whose `goals.total` is
present but null normalizes successfully to a record whose "Goals" value
is null, not numeric. -/
theorem c7_numeric_values_counterexample :
    (normalizePlayer nullGoalsCand >>= (fun r => statOf r "Goals")) =
      .ok PyVal.none ∧
    PyVal.isNumeric PyVal.none = false :=
  ⟨rfl, rfl⟩

/-- Claim C7 (amended): every record produced by player normalization
carries exactly the fourteen statistic keys in the closed set, and the
eight null-guarded keys (Assists, Pass Success Rate, Duels Won,
Total Tackles, Interceptions, Blocks, Fouls Drawn, Fouls Committed)
never hold a null value (null or absent-where-defaulted source values
become 0); the remaining six keys carry the source value unchanged and
may be null. -/
theorem c7_record_keys_amended (c r : PyVal)
    (h : normalizePlayer c = .ok r) :
    ∃ es : List (String × PyVal),
      r.getItem "Stats" = .ok (.dict es) ∧
      es.map Prod.fst =
        ["Goals", "Assists", "Total Shots", "Shots on Target",
         "Dribble Attempts", "Dribble Successes", "Key Passes",
         "Pass Success Rate", "Duels Won", "Total Tackles",
         "Interceptions", "Blocks", "Fouls Drawn", "Fouls Committed"] ∧
      ∀ p ∈ es,
        p.1 ∈ (["Assists", "Pass Success Rate", "Duels Won",
                "Total Tackles", "Interceptions", "Blocks", "Fouls Drawn",
                "Fouls Committed"] : List String) →
        p.2.isNone = false := by
  obtain ⟨player, stats, gt, ga, st, son, da, ds, kp, pa, dw, tt, ti, tb,
    fd, fc, nm, ph, tlogo, natl, tid, h1, h2, h3, h4, h5, h6, h7, h8, h9,
    h10, h11, h12, h13, h14, h15, h16, h17, h18, h19, h20, h21, hr⟩ :=
    normalizePlayer_ok_inv h
  subst hr
  refine ⟨[("Goals", gt),
    ("Assists", if ga.isNone then PyVal.int 0 else ga),
    ("Total Shots", st), ("Shots on Target", son), ("Dribble Attempts", da),
    ("Dribble Successes", ds), ("Key Passes", kp),
    ("Pass Success Rate", if pa.isNone then PyVal.int 0 else pa),
    ("Duels Won", if dw.isNone then PyVal.int 0 else dw),
    ("Total Tackles", if tt.isNone then PyVal.int 0 else tt),
    ("Interceptions", if ti.isNone then PyVal.int 0 else ti),
    ("Blocks", if tb.isNone then PyVal.int 0 else tb),
    ("Fouls Drawn", if fd.isNone then PyVal.int 0 else fd),
    ("Fouls Committed", if fc.isNone then PyVal.int 0 else fc)],
    rfl, rfl, ?_⟩
  intro p hp hk
  simp only [List.mem_cons, List.not_mem_nil, or_false] at hp
  rcases hp with hp | hp | hp | hp | hp | hp | hp | hp | hp | hp | hp | hp | hp | hp <;>
    subst hp
  · simp at hk
  · split
    · rfl
    · next hga => cases ga <;> simp_all [PyVal.isNone]
  · simp at hk
  · simp at hk
  · simp at hk
  · simp at hk
  · simp at hk
  · split
    · rfl
    · next hx => cases pa <;> simp_all [PyVal.isNone]
  · split
    · rfl
    · next hx => cases dw <;> simp_all [PyVal.isNone]
  · split
    · rfl
    · next hx => cases tt <;> simp_all [PyVal.isNone]
  · split
    · rfl
    · next hx => cases ti <;> simp_all [PyVal.isNone]
  · split
    · rfl
    · next hx => cases tb <;> simp_all [PyVal.isNone]
  · split
    · rfl
    · next hx => cases fd <;> simp_all [PyVal.isNone]
  · split
    · rfl
    · next hx => cases fc <;> simp_all [PyVal.isNone]

/-- Witness for C7 at the concrete candidate with a null assists
field. -/
theorem c7_record_keys_amended_witness :
    ∃ es : List (String × PyVal),
      playerCandRecord.getItem "Stats" = .ok (.dict es) ∧
      es.map Prod.fst =
        ["Goals", "Assists", "Total Shots", "Shots on Target",
         "Dribble Attempts", "Dribble Successes", "Key Passes",
         "Pass Success Rate", "Duels Won", "Total Tackles",
         "Interceptions", "Blocks", "Fouls Drawn", "Fouls Committed"] ∧
      ∀ p ∈ es,
        p.1 ∈ (["Assists", "Pass Success Rate", "Duels Won",
                "Total Tackles", "Interceptions", "Blocks", "Fouls Drawn",
                "Fouls Committed"] : List String) →
        p.2.isNone = false :=
  c7_record_keys_amended playerCand playerCandRecord rfl

/-- Claim C8: the spec asserts that a team-statistics fetch yielding no
data makes `get_team_stats` return the typed "No stats found" message.
In the source the membership test `'team' not in club_data` (line 241)
runs before the `club_data is None` check (line 244), so a fetch with no
data (where `get_club_stats_from_api` returns None) raises TypeError and
the None check is dead code. This theorem evaluates the embedded pipeline
at exactly that failing input: a resolved club whose statistics response
carries an empty `response` list. -/
theorem c8_team_stats_none_typeerror :
    get_team_stats (some 42) (.dict [("response", .list [])])
      "Arsenal" "England" "2023" "Premier League" = .error .typeError ∧
    get_club_stats_from_api (.dict [("response", .list [])]) =
      PyVal.none :=
  ⟨rfl, rfl⟩

/-- Counterexample for C9: the claim says applying normalizePlayer twice
yields output identical to applying it once. At the concrete candidate
the single application succeeds with a record, while the double
application fails with KeyError 'player' (the output record keys are
capitalized "Player"/"Stats"), and an error is never equal to a
successful result. -/
theorem c9_idempotence_counterexample :
    (normalizePlayer playerCand >>= (fun r => normalizePlayer r)) =
      .error (.keyError "player") ∧
    normalizePlayer playerCand = .ok playerCandRecord ∧
    (Except.ok playerCandRecord : Except PyErr PyVal) ≠
      .error (.keyError "player") :=
  ⟨rfl, rfl, fun h => nomatch h⟩

/-- Claim C9 (amended): normalizePlayer is not idempotent in the
composition sense; its successful output is never itself a normalizable
candidate, because re-applying normalizePlayer to any successful output
fails with KeyError 'player'. A repeated application to the same original
candidate trivially yields the identical output, normalization being a
pure function of the candidate. -/
theorem c9_renormalize_fails_amended (c r : PyVal)
    (h : normalizePlayer c = .ok r) :
    normalizePlayer r = .error (.keyError "player") := by
  obtain ⟨player, stats, gt, ga, st, son, da, ds, kp, pa, dw, tt, ti, tb,
    fd, fc, nm, ph, tlogo, natl, tid, h1, h2, h3, h4, h5, h6, h7, h8, h9,
    h10, h11, h12, h13, h14, h15, h16, h17, h18, h19, h20, h21, hr⟩ :=
    normalizePlayer_ok_inv h
  subst hr
  simp [normalizePlayer, mkPlayerRecord, PyVal.getItem, lookupD,
    Bind.bind, Except.bind]

/-- Witness for C9 at the concrete candidate. -/
theorem c9_renormalize_fails_amended_witness :
    normalizePlayer playerCandRecord = .error (.keyError "player") :=
  c9_renormalize_fails_amended playerCand playerCandRecord rfl

/-- Claim C10: player normalization depends only on the identity reads of
the `player` sub-record and on `statistics[0]` — two candidates whose
name, photo and nationality reads agree and whose first statistics
elements agree normalize identically, so elements after the first are
ignored — and a candidate whose statistics sequence is empty fails with
IndexError instead of producing a record. -/
theorem c10_stats_first_element_only :
    (∀ c1 c2 p1 p2 : PyVal,
      c1.getItem "player" = .ok p1 → c2.getItem "player" = .ok p2 →
      p1.getItem "name" = p2.getItem "name" →
      p1.getItem "photo" = p2.getItem "photo" →
      p1.getItem "nationality" = p2.getItem "nationality" →
      stats0 c1 = stats0 c2 →
      normalizePlayer c1 = normalizePlayer c2) ∧
    (∀ c p : PyVal, c.getItem "player" = .ok p →
      c.getItem "statistics" = .ok (.list []) →
      normalizePlayer c = .error .indexError) := by
  constructor
  · intro c1 c2 p1 p2 h1 h2 hnm hph hnat hst
    unfold normalizePlayer
    rw [h1, h2, hst]
    simp only [Bind.bind, Except.bind]
    cases hs : stats0 c2 with
    | error e => rfl
    | ok stats => simp only [hnm, hph, hnat]
  · intro c p h1 h2
    unfold normalizePlayer stats0
    rw [h1, h2]
    simp [Bind.bind, Except.bind, pyIndex]

/-- Witness for C10: the concrete candidate and its variant with a second
statistics element normalize identically, and the empty-statistics
candidate fails with IndexError. -/
theorem c10_stats_first_element_only_witness :
    normalizePlayer playerCand = normalizePlayer playerCandExtra ∧
    normalizePlayer emptyStatsCand = .error .indexError :=
  ⟨c10_stats_first_element_only.1 playerCand playerCandExtra
      (.dict [("name", .str "Rico Lewis"), ("photo", .str "p.png"),
              ("nationality", .str "England")])
      (.dict [("name", .str "Rico Lewis"), ("photo", .str "p.png"),
              ("nationality", .str "England")])
      rfl rfl rfl rfl rfl rfl,
   c10_stats_first_element_only.2 emptyStatsCand
      (.dict [("name", .str "Rico Lewis"), ("photo", .str "p.png"),
              ("nationality", .str "England")])
      rfl rfl⟩
